import Mathlib

/-!
Verification development for the checkout core of viur-shop
(`src/viur/shop/modules/shipping.py`, `src/viur/shop/modules/order.py`).

The Python modules are shallowly embedded: skeletons become plain Lean
structures, the datastore becomes an explicit association list threaded
through the operations, raised exceptions and HTTP responses become
constructors of explicit result types, and the pluggable applicability /
payment-provider policies become function parameters.  Monetary costs are
modelled as integers, entity keys as naturals.
-/

/- ### Python dict model

`{k: v for ...}` builds with successive key assignment: assigning an
existing key keeps its original position and overwrites the value,
assigning a fresh key appends.  Both the dedup step of
`get_shipping_skels_for_cart` and `skel.toDB()` persistence use this. -/

/-- One key assignment `m[k] = v` of a Python dict kept in insertion order. -/
def dict_set {α : Type} (m : List (Nat × α)) (k : Nat) (v : α) : List (Nat × α) :=
  if m.any (fun p => p.1 == k) then
    m.map (fun p => if p.1 == k then (k, v) else p)
  else
    m ++ [(k, v)]

/-- Dict lookup `m.get(k)`. -/
def dict_get {α : Type} (m : List (Nat × α)) (k : Nat) : Option α :=
  (m.find? (fun p => p.1 == k)).map (·.2)

/- ### Shipping data model (`shipping.py`)

`ShippingRel` is one entry of a shipping config's `shipping` relational
bone: the referenced `ShippingSkel` (`dest`: its key and `shipping_cost`)
together with an opaque relation payload (`rel`), both of which are passed
to the pluggable `is_applicable` policy. -/

structure ShippingRel where
  dest_key : Nat
  shipping_cost : Option Int
  rel_data : Nat
deriving DecidableEq

/-- A `ShippingConfigSkel`: key plus the `shipping` bone's entries. -/
structure ShippingConfig where
  key : Nat
  shipping : List ShippingRel
deriving DecidableEq

/-- An article skeleton, reduced to the bones shipping resolution reads:
its key and the (nullable) `shop_shipping_config` reference. -/
structure Article where
  key : Nat
  shop_shipping_config : Option ShippingConfig
deriving DecidableEq

/-- A child of a cart node as returned by `Cart.get_children`: either a
sub-cart node (with its own children) or a leaf line item holding an
article.  Modelled from the spec: the cart module itself is not among the
provided sources; `get_children` returns direct children only and the
resolver walks them with an explicit work queue. -/
inductive CartChild where
  | node (children : List CartChild)
  | leaf (article : Article)

/-- The root cart node skeleton handed to the resolver: its key and its
direct children (Modelled from the spec: child enumeration is the cart
module's `get_children`, not in the provided sources). -/
structure CartSkel where
  key : Nat
  children : List CartChild

/-- `min(xs, key=f)` of Python: `none` on an empty sequence (`ValueError`),
otherwise the first element attaining the minimal key (replacement happens
only on a strict decrease). -/
def pyMinBy {α : Type} (f : α → Int) : List α → Option α
  | [] => none
  | x :: xs => some (xs.foldl (fun best y => if f y < f best then y else best) x)

/-- The cost used to compare shipping options:
`shipping["dest"]["shipping_cost"] or 0`. -/
def ship_cost (s : ShippingRel) : Int :=
  s.shipping_cost.getD 0

/-- The applicability-filter loop shared by `choose_shipping_skel_for_article`
and `get_available_shipping_skels_for_cart`: iterate the candidates and
append those for which the pluggable `is_applicable` policy (abstracted as
`isApp`, returning the `(bool, reason)` pair of the contract) holds for
`subject` (an article or a cart). -/
def applicable_filter {σ : Type} (isApp : ShippingRel → σ → Bool × String)
    (subject : σ) (candidates : List ShippingRel) : List ShippingRel :=
  candidates.foldl (fun acc s => if (isApp s subject).1 then acc ++ [s] else acc) []

/-- Result of `choose_shipping_skel_for_article`, which returns
`None` (no config), `False` (configured but nothing applicable) or a
shipping skel — three mutually distinguishable values. -/
inductive ChooseShippingResult where
  | noConfig
  | unresolvable
  | chosen (s : ShippingRel)
deriving DecidableEq

/-- `Shipping.choose_shipping_skel_for_article`: cheapest applicable
shipping for an article; `noConfig` when `shop_shipping_config` is unset,
`unresolvable` when no candidate is applicable. -/
def choose_shipping_skel_for_article (isApp : ShippingRel → Article → Bool × String)
    (article_skel : Article) : ChooseShippingResult :=
  match article_skel.shop_shipping_config with
  | none => ChooseShippingResult.noConfig
  | some shipping_config_skel =>
    let applicable_shippings := applicable_filter isApp article_skel shipping_config_skel.shipping
    match pyMinBy ship_cost applicable_shippings with
    | none => ChooseShippingResult.unresolvable
    | some cheapest_shipping => ChooseShippingResult.chosen cheapest_shipping

/-- Combined size of a list of cart children (used as termination measure
for the work-queue traversal). -/
def csSize : List CartChild → Nat
  | [] => 0
  | CartChild.leaf _ :: rest => 1 + csSize rest
  | CartChild.node ch :: rest => 1 + csSize ch + csSize rest

/-- Measure of the work queue: each queued node costs one plus the size of
its children. -/
def qMeasure : List (List CartChild) → Nat
  | [] => 0
  | e :: rest => 1 + csSize e + qMeasure rest

/-- Processing one dequeued node's child inside the traversal loop:
sub-cart nodes are pushed onto the queue, leaves contribute their
article's `shop_shipping_config` (when set) to the collected list. -/
def walkStep (p : List (List CartChild) × List ShippingConfig) (child : CartChild) :
    List (List CartChild) × List ShippingConfig :=
  match child with
  | CartChild.node ch => (ch :: p.1, p.2)
  | CartChild.leaf a =>
    match a.shop_shipping_config with
    | some sc => (p.1, p.2 ++ [sc])
    | none => p

/-- The `while node_queue` loop of `get_shipping_skels_for_cart`: the queue
is a stack (`collections.deque` with right `append`/`pop`, head of the Lean
list = right end); each popped node's children are processed left to right
by `walkStep`. -/
def walkQueue : List (List CartChild) → List ShippingConfig → List ShippingConfig
  | [], acc => acc
  | children :: restQ, acc =>
    let p := children.foldl walkStep (restQ, acc)
    walkQueue p.1 p.2
termination_by q _ => qMeasure q
decreasing_by
  have key : ∀ (cs : List CartChild) (q : List (List CartChild)) (acc : List ShippingConfig),
      qMeasure (cs.foldl walkStep (q, acc)).1 ≤ qMeasure q + csSize cs := by
    intro cs
    induction cs with
    | nil => intro q _acc; simp [csSize]
    | cons c rest ih =>
      intro q acc
      rw [List.foldl_cons]
      cases c with
      | node ch =>
        have h1 := ih (ch :: q) acc
        simp only [walkStep, qMeasure, csSize] at h1 ⊢
        omega
      | leaf a =>
        cases h : a.shop_shipping_config with
        | some sc =>
          have h1 := ih q (acc ++ [sc])
          simp only [walkStep, h, qMeasure, csSize] at h1 ⊢
          omega
        | none =>
          have h1 := ih q acc
          simp only [walkStep, h, qMeasure, csSize] at h1 ⊢
          omega
  calc qMeasure (children.foldl walkStep (restQ, acc)).1
      ≤ qMeasure restQ + csSize children := key children restQ acc
    _ < qMeasure (children :: restQ) := by simp only [qMeasure]; omega

/-- The pre-dedup `all_shipping_configs` list collected by the tree walk of
`get_shipping_skels_for_cart`, seeded with the given cart node. -/
def collected_shipping_configs (cart_skel : CartSkel) : List ShippingConfig :=
  walkQueue [cart_skel.children] []

/-- The dedup step
`list(({sc["key"]: sc for sc in all_shipping_configs}).values())`. -/
def dedup_shipping_configs (l : List ShippingConfig) : List ShippingConfig :=
  (l.foldl (fun m sc => dict_set m sc.key sc) []).map (·.2)

/-- `Shipping.get_shipping_skels_for_cart`: walk the cart tree, dedup the
collected shipping configs by key, and flatten their option lists.
(`shipping_config_skel["shipping"] or []` is the identity here because the
bone is modelled as a list.) -/
def get_shipping_skels_for_cart (cart_skel : CartSkel) : List ShippingRel :=
  let all_shipping_configs := dedup_shipping_configs (collected_shipping_configs cart_skel)
  if all_shipping_configs = [] then []
  else (all_shipping_configs.map (·.shipping)).flatten

/-- The keys of one relational-bone entry dict `{"dest": ..., "rel": ...}`:
what Python yields when iterating the entry, as the stray second
`itertools.chain.from_iterable` at the top of
`get_available_shipping_skels_for_cart` does. -/
def rel_entry_keys (_entry : ShippingRel) : List String := ["dest", "rel"]

/-- `Shipping.get_available_shipping_skels_for_cart`, faithful to the
source: `get_shipping_skels_for_cart` already returns a flat list of
rel-entries, and this function wraps it in `itertools.chain.from_iterable`
a second time, so the `for shipping in all_shipping` loop iterates the
entry dicts' keys (the strings of `rel_entry_keys`).  On the first string
the loop body's `shipping["dest"]` raises `TypeError` (string indices must
be integers), before `is_applicable` is ever reached; only when there is
no candidate entry at all does the loop not run, `applicable_shippings`
stay empty, and the function return `[]`. -/
def get_available_shipping_skels_for_cart (_isApp : ShippingRel → CartSkel → Bool × String)
    (cart_skel : CartSkel) : Except String (List ShippingRel) :=
  let all_shipping : List String :=
    ((get_shipping_skels_for_cart cart_skel).map rel_entry_keys).flatten
  match all_shipping with
  | [] => Except.ok []
  | _ :: _ => Except.error "TypeError: string indices must be integers"

/-- Observable outcome of `Shipping.set_shipping_to_cart`. `updated` is the
delegation to the cart module's `cart_update(cart_key, shipping_key=...)`;
`notFound` is a raised `errors.NotFound`; `valueErrorEmptyMin` is the
`ValueError` Python's `min` raises on an empty sequence; `typeError` is
the `TypeError` propagating out of
`get_available_shipping_skels_for_cart`. -/
inductive SetShippingResult where
  | updated (cart_key : Nat) (shipping_key : Nat)
  | notFound (msg : String)
  | valueErrorEmptyMin
  | typeError (msg : String)
deriving DecidableEq

/-- `Shipping.set_shipping_to_cart`.  NOTE (faithful to the source): when
no shipping is applicable the source merely constructs
`errors.NotFound("No applicable Shipping found for this cart")` without
raising it, so that branch is a no-op here as well and the omitted-key path
falls through to `min` on the empty sequence.  The
`get_available_shipping_skels_for_cart` call comes first, so its
`TypeError` (raised for every cart with candidate entries) propagates. -/
def set_shipping_to_cart (isApp : ShippingRel → CartSkel → Bool × String)
    (cart_skel : CartSkel) (shipping_key : Option Nat) : SetShippingResult :=
  match get_available_shipping_skels_for_cart isApp cart_skel with
  | Except.error msg => SetShippingResult.typeError msg
  | Except.ok applicable_shippings =>
    match shipping_key with
    | none =>
      match pyMinBy ship_cost applicable_shippings with
      | none => SetShippingResult.valueErrorEmptyMin
      | some cheapest_shipping =>
        SetShippingResult.updated cart_skel.key cheapest_shipping.dest_key
    | some k =>
      match applicable_shippings.find? (fun s => s.dest_key == k) with
      | some _ => SetShippingResult.updated cart_skel.key k
      | none => SetShippingResult.notFound "Provided Shipping key not found"

/- ### Order data model (`order.py`) -/

/-- Modelled from the spec: `constants.AddressType` is imported by
`order.py` but missing from the provided sources; the spec only requires a
BILLING address type distinguishable from others (shipping). -/
inductive AddressType where
  | billing
  | shipping
deriving DecidableEq

/-- An address skeleton, reduced to the bone `order_add` validates. -/
structure Address where
  address_type : AddressType
deriving DecidableEq

/-- The order skeleton (`shop_order` kind), reduced to the bones the
order module reads and writes.  `cart`/`customer` hold the referenced
keys, `billing_address` the resolved destination address. -/
structure OrderSkel where
  cart : Option Nat := none
  total : Int := 0
  payment_provider : Option String := none
  billing_address : Option Address := none
  email : Option String := none
  customer : Option Nat := none
  state_ordered : Bool := false
  state_paid : Bool := false
  state_rts : Bool := false
  is_ordered : Bool := false
  order_uid : Option String := none
deriving DecidableEq

/-- The abstract payment-provider contract consulted by the order module:
a stable name plus the two validation hooks returning error lists. -/
structure PaymentProviderAbstract where
  name : String
  can_checkout : OrderSkel → List String
  can_order : OrderSkel → List String

/-- The order portion of the entity store, keyed by order key. -/
abbrev OrderStore := List (Nat × OrderSkel)

/-- `skel.fromDB(order_key)`. -/
def store_get (store : OrderStore) (order_key : Nat) : Option OrderSkel :=
  dict_get store order_key

/-- `skel.toDB()` for an order held under `order_key`. -/
def store_put (store : OrderStore) (order_key : Nat) (skel : OrderSkel) : OrderStore :=
  dict_set store order_key skel

/-- `Order.get_payment_provider_by_name`: linear scan of the configured
providers by name; `none` models the raised `LookupError`. -/
def get_payment_provider_by_name (pps : List PaymentProviderAbstract)
    (payment_provider_name : String) : Option PaymentProviderAbstract :=
  pps.find? (fun pp => payment_provider_name == pp.name)

/-- `Order.can_checkout`: additive validation; `.error name` models the
`LookupError` escaping from `get_payment_provider_by_name`.  A payment
provider that is `None` or the empty string is falsy in Python and counts
as missing. -/
def can_checkout (pps : List PaymentProviderAbstract) (order_skel : OrderSkel) :
    Except String (List String) :=
  let errs := if order_skel.cart = none then ["missing cart"] else []
  match order_skel.payment_provider with
  | none => Except.ok (errs ++ ["missing payment_provider"])
  | some name =>
    if name = "" then Except.ok (errs ++ ["missing payment_provider"])
    else
      match get_payment_provider_by_name pps name with
      | none => Except.error name
      | some pp => Except.ok (errs ++ pp.can_checkout order_skel)

/-- `Order.can_order`: like `can_checkout` but first rejecting an already
finalized order. -/
def can_order (pps : List PaymentProviderAbstract) (order_skel : OrderSkel) :
    Except String (List String) :=
  let errs := if order_skel.is_ordered then ["already is_ordered"] else []
  let errs := errs ++ (if order_skel.cart = none then ["missing cart"] else [])
  match order_skel.payment_provider with
  | none => Except.ok (errs ++ ["missing payment_provider"])
  | some name =>
    if name = "" then Except.ok (errs ++ ["missing payment_provider"])
    else
      match get_payment_provider_by_name pps name with
      | none => Except.error name
      | some pp => Except.ok (errs ++ pp.can_order order_skel)

/-- `Order.freeze_order`: in the source this is a stub whose body consists
of TODO comments (`recalculate cart`, `copy values`) and returns the
skeleton unchanged. -/
def freeze_order (order_skel : OrderSkel) : OrderSkel :=
  order_skel

/-- Strip `'-'` from both ends of a character list (Python `str.strip("-")`). -/
def strip_dashes (l : List Char) : List Char :=
  ((l.dropWhile (· == '-')).reverse.dropWhile (· == '-')).reverse

/-- The order-UID format of `Order.assign_uid`: given the digits of
`str(time.time()).replace(".", "")`, prefix every character at an index
divisible by 4 with `'-'` and strip dashes from the ends. -/
def order_uid_format (digits : List Char) : String :=
  String.mk (strip_dashes ((digits.enum.map
    (fun p => if p.1 % 4 == 0 then ['-', p.2] else [p.2])).flatten))

/-- `Order.assign_uid`, with the timestamp digits as an explicit input. -/
def assign_uid (now_digits : List Char) (order_skel : OrderSkel) : OrderSkel :=
  { order_skel with order_uid := some (order_uid_format now_digits) }

/-- Observable outcome of the two exposed checkout endpoints: a 200
`JsonResponse` with the persisted skeleton, a 400 `JsonResponse` carrying
the validation errors, a raised `errors.NotFound`, or a `LookupError`
escaping from the payment-provider lookup. -/
inductive CheckoutResponse where
  | ok (skel : OrderSkel)
  | badRequest (errors : List String)
  | notFound
  | lookupError (payment_provider_name : String)
deriving DecidableEq

/-- `Order.checkout_start`: load the order, collect `can_checkout`
failures (returned as a 400 response without persisting anything), and on
success freeze, assign the UID and persist. -/
def checkout_start (pps : List PaymentProviderAbstract) (now_digits : List Char)
    (store : OrderStore) (order_key : Nat) : OrderStore × CheckoutResponse :=
  match store_get store order_key with
  | none => (store, CheckoutResponse.notFound)
  | some skel =>
    match can_checkout pps skel with
    | Except.error name => (store, CheckoutResponse.lookupError name)
    | Except.ok errs =>
      if errs = [] then
        let skel1 := assign_uid now_digits (freeze_order skel)
        (store_put store order_key skel1, CheckoutResponse.ok skel1)
      else (store, CheckoutResponse.badRequest errs)

/-- `Order.checkout_order`: load the order, collect `can_order` failures
(returned as a 400 response without persisting anything), and on success
set `is_ordered = True` and persist. -/
def checkout_order (pps : List PaymentProviderAbstract)
    (store : OrderStore) (order_key : Nat) : OrderStore × CheckoutResponse :=
  match store_get store order_key with
  | none => (store, CheckoutResponse.notFound)
  | some skel =>
    match can_order pps skel with
    | Except.error name => (store, CheckoutResponse.lookupError name)
    | Except.ok errs =>
      if errs = [] then
        let skel1 := { skel with is_ordered := true }
        (store_put store order_key skel1, CheckoutResponse.ok skel1)
      else (store, CheckoutResponse.badRequest errs)

/- ### `order_add` (`order.py`) -/

/-- A cart node as the order module reads it.  Modelled from the spec: the
cart module is not among the provided sources; `order_add` needs the
node's parent (root check) and aggregate total. -/
structure CartNodeData where
  parent : Option Nat
  total : Int
deriving DecidableEq

/-- The authenticated actor (`current.user`): its `name` doubles as the
default email, its key as the default customer reference. -/
structure UserData where
  name : String
  key : Nat
deriving DecidableEq

/-- The ambient collaborators `order_add` consults: the cart store, the
address store, the authenticated actor (if any) and the session cart key
(if any). -/
structure OrderEnv where
  carts : List (Nat × CartNodeData)
  addresses : List (Nat × Address)
  user : Option UserData
  session_cart_key : Option Nat

/-- Modelled from the spec: `Cart.is_valid_node(key, root_node)` is not in
the provided sources; it checks existence and, when `root_node` is true,
that the node has no parent. -/
def is_valid_node (carts : List (Nat × CartNodeData)) (key : Nat) (root_node : Bool) : Bool :=
  match dict_get carts key with
  | none => false
  | some c => if root_node then c.parent.isNone else true

/-- The optional keyword arguments of `order_add`.  The Python source uses
a module-level `_sentinel` default so that an omitted argument is
distinguishable from an explicitly passed `None`/`False`; here the outer
`none` is the sentinel (argument omitted) and `some none` an explicit
`None`. -/
structure OrderAddArgs where
  payment_provider : Option (Option String) := none
  billing_address_key : Option (Option Nat) := none
  email : Option (Option String) := none
  customer_key : Option (Option Nat) := none
  state_ordered : Option Bool := none
  state_paid : Option Bool := none
  state_rts : Option Bool := none

/-- Outcome of `order_add`: `ok` carries the persisted skeleton,
`valueErrorInvalidCart` the `ValueError` raised for an invalid root-cart
key, `invalidArgument` the raised
`e.InvalidArgumentException(param, descr_appendix=...)`, and
`addressLookupFailed` a billing-address key that resolves to no address
(kept to make the embedding total; outside the claims' scope).  The
`TypeError` guards of the source are enforced by the embedding's types. -/
inductive OrderAddResult where
  | ok (skel : OrderSkel)
  | valueErrorInvalidCart
  | invalidArgument (param : String) (descr_appendix : String)
  | addressLookupFailed
deriving DecidableEq

/-- The validation and field-population phase of `Order.order_add`
(everything before `skel.toDB()`); every `Except.error` corresponds to a
raise that aborts the call before anything is persisted. -/
def order_add_skel (env : OrderEnv) (cart_key : Nat) (args : OrderAddArgs) :
    Except OrderAddResult OrderSkel :=
  if ¬ is_valid_node env.carts cart_key true then
    Except.error OrderAddResult.valueErrorInvalidCart
  else
    match dict_get env.carts cart_key with
    | none =>
      -- unreachable: `is_valid_node` implies the cart loads (the assert)
      Except.error OrderAddResult.valueErrorInvalidCart
    | some cart_skel =>
      let skel : OrderSkel := { cart := some cart_key, total := cart_skel.total }
      let skel := match args.payment_provider with
        | none => skel
        | some pp => { skel with payment_provider := pp }
      let billing : Except OrderAddResult OrderSkel :=
        match args.billing_address_key with
        | none => Except.ok skel
        | some none => Except.ok { skel with billing_address := none }
        | some (some bk) =>
          match dict_get env.addresses bk with
          | none => Except.error OrderAddResult.addressLookupFailed
          | some addr =>
            if addr.address_type ≠ AddressType.billing then
              Except.error (OrderAddResult.invalidArgument "shipping_address"
                "Address is not of type billing.")
            else Except.ok { skel with billing_address := some addr }
      match billing with
      | Except.error err => Except.error err
      | Except.ok skel =>
        let skel := match env.user with
          | some u => { skel with email := some u.name, customer := some u.key }
          | none => skel
        let skel := match args.email with
          | none => skel
          | some em => { skel with email := em }
        let skel := match args.customer_key with
          | none => skel
          | some ck => { skel with customer := ck }
        let skel := match args.state_ordered with
          | none => skel
          | some b => { skel with state_ordered := b }
        let skel := match args.state_paid with
          | none => skel
          | some b => { skel with state_paid := b }
        let skel := match args.state_rts with
          | none => skel
          | some b => { skel with state_rts := b }
        Except.ok skel

/-- `Order.order_add`: validate and populate, persist the new order under
the fresh `new_key`, and detach the session cart when the converted cart
was the session cart.  Returns the order store, the session cart key after
the call, and the result; on every error path both are unchanged because
the source raises before `skel.toDB()`. -/
def order_add (env : OrderEnv) (store : OrderStore) (new_key : Nat) (cart_key : Nat)
    (args : OrderAddArgs) : OrderStore × Option Nat × OrderAddResult :=
  match order_add_skel env cart_key args with
  | Except.error err => (store, env.session_cart_key, err)
  | Except.ok skel =>
    let store1 := store_put store new_key skel
    let session1 := if env.session_cart_key = some cart_key then none
      else env.session_cart_key
    (store1, session1, OrderAddResult.ok skel)


/- ### Concrete instances used by the scenario conjuncts and witnesses -/

/-- Shipping option with cost 5 (`SC1`'s applicable option in the spec
scenario). -/
def opt5 : ShippingRel := { dest_key := 51, shipping_cost := some 5, rel_data := 0 }

/-- Shipping option with cost 3 (`SC1`'s cheaper but inapplicable option in
the spec scenario). -/
def opt3 : ShippingRel := { dest_key := 33, shipping_cost := some 3, rel_data := 0 }

/-- The shipping configuration `SC1` of the spec scenario. -/
def sc1 : ShippingConfig := { key := 1, shipping := [opt5, opt3] }

/-- First scenario article, referencing `SC1`. -/
def art1 : Article := { key := 101, shop_shipping_config := some sc1 }

/-- Second scenario article, also referencing `SC1`. -/
def art2 : Article := { key := 102, shop_shipping_config := some sc1 }

/-- The scenario cart `C1`: two leaf line items, both referencing `SC1`. -/
def cartC1 : CartSkel :=
  { key := 1, children := [CartChild.leaf art1, CartChild.leaf art2] }

/-- Scenario applicability policy: only the cost-5 option (key 51) is
applicable. -/
def isApp51 : ShippingRel → CartSkel → Bool × String :=
  fun s _ => (s.dest_key == 51, "scenario policy")

/-- Policy under which every option is applicable. -/
def isAppAll : ShippingRel → CartSkel → Bool × String :=
  fun _ _ => (true, "always applicable")

/-- Policy under which no option is applicable. -/
def isAppNone : ShippingRel → CartSkel → Bool × String :=
  fun _ _ => (false, "never applicable")

/-- A cart whose single article has no shipping configuration. -/
def cartNoConfig : CartSkel :=
  { key := 2,
    children := [CartChild.leaf { key := 201, shop_shipping_config := none }] }

/-- A payment provider that accepts everything. -/
def ppOk : PaymentProviderAbstract :=
  { name := "pp", can_checkout := fun _ => [], can_order := fun _ => [] }

/-- An order that passes `can_order`: cart and a registered provider set,
not yet ordered. -/
def orderReady : OrderSkel :=
  { cart := some 1, total := 10, payment_provider := some "pp" }

/-- An already finalized order whose provider name is not registered. -/
def orderGhost : OrderSkel :=
  { cart := some 1, total := 10, payment_provider := some "ghost", is_ordered := true }

/-- An order with neither cart nor payment provider. -/
def orderBare : OrderSkel := {}

/-- Store holding `orderReady` under key 10. -/
def storeReady : OrderStore := [(10, orderReady)]

/-- Store holding `orderGhost` under key 11. -/
def storeGhost : OrderStore := [(11, orderGhost)]

/-- Store holding `orderBare` under key 12. -/
def storeBare : OrderStore := [(12, orderBare)]

/-- Environment for the `order_add` witnesses: one root cart (key 1), one
shipping-type address (key 7), no user, no session cart. -/
def envW : OrderEnv :=
  { carts := [(1, { parent := none, total := 10 })],
    addresses := [(7, { address_type := AddressType.shipping })],
    user := none,
    session_cart_key := none }

/-- Article-level variant of the scenario policy: only option 51 is
applicable. -/
def isAppArt51 : ShippingRel → Article → Bool × String :=
  fun s _ => (s.dest_key == 51, "scenario policy")

/-- Two structurally different configs sharing key 9, to exhibit the
last-write-wins collapse. -/
def scA : ShippingConfig := { key := 9, shipping := [opt5] }

/-- Second config with the same key 9 (see `scA`). -/
def scB : ShippingConfig := { key := 9, shipping := [opt3] }

/-- A cart whose two leaves reference `scA` and `scB` (same config key). -/
def cartDup : CartSkel :=
  { key := 3,
    children :=
      [CartChild.leaf { key := 301, shop_shipping_config := some scA },
       CartChild.leaf { key := 302, shop_shipping_config := some scB }] }

/-- `order_add` arguments carrying the non-billing address key 7. -/
def argsBadBilling : OrderAddArgs := { billing_address_key := some (some 7) }

/- ### Helper lemmas -/

theorem pyMinBy_foldl_spec {α : Type} (f : α → Int) (xs : List α) :
    ∀ x : α,
      (xs.foldl (fun best y => if f y < f best then y else best) x = x ∧
        ∀ y ∈ xs, f x ≤ f y) ∨
      (∃ l1 l2, xs = l1 ++ (xs.foldl (fun best y => if f y < f best then y else best) x) :: l2 ∧
        f (xs.foldl (fun best y => if f y < f best then y else best) x) < f x ∧
        (∀ y ∈ l1, f (xs.foldl (fun best y => if f y < f best then y else best) x) < f y) ∧
        (∀ y ∈ l2, f (xs.foldl (fun best y => if f y < f best then y else best) x) ≤ f y)) := by
  induction xs with
  | nil => intro x; left; simp
  | cons z zs ih =>
    intro x
    rw [List.foldl_cons]
    by_cases hz : f z < f x
    · rw [if_pos hz]
      rcases ih z with ⟨heq, hall⟩ | ⟨l1, l2, hsplit, hlt, hpre, hpost⟩
      · right
        refine ⟨[], zs, ?_, ?_, ?_, ?_⟩
        · simp [heq]
        · rw [heq]; exact hz
        · simp
        · rw [heq]; exact hall
      · right
        refine ⟨z :: l1, l2, ?_, ?_, ?_, ?_⟩
        · simp only [List.cons_append]
          exact congrArg (z :: ·) hsplit
        · exact lt_trans hlt hz
        · intro y hy
          rcases List.mem_cons.mp hy with h | h
          · subst h; exact hlt
          · exact hpre y h
        · exact hpost
    · rw [if_neg hz]
      push_neg at hz
      rcases ih x with ⟨heq, hall⟩ | ⟨l1, l2, hsplit, hlt, hpre, hpost⟩
      · left
        refine ⟨heq, ?_⟩
        intro y hy
        rcases List.mem_cons.mp hy with h | h
        · subst h; exact hz
        · exact hall y h
      · right
        refine ⟨z :: l1, l2, ?_, hlt, ?_, hpost⟩
        · simp only [List.cons_append]
          exact congrArg (z :: ·) hsplit
        · intro y hy
          rcases List.mem_cons.mp hy with h | h
          · subst h; exact lt_of_lt_of_le hlt hz
          · exact hpre y h

/-- Characterization of Python `min(l, key=f)` on a non-empty list: it
returns the first element attaining the minimal key, i.e. everything
strictly before it has a strictly larger key and everything after has a
key at least as large. -/
theorem pyMinBy_spec {α : Type} (f : α → Int) (l : List α) (h : l ≠ []) :
    ∃ m l1 l2, pyMinBy f l = some m ∧ l = l1 ++ m :: l2 ∧
      (∀ y ∈ l1, f m < f y) ∧ (∀ y ∈ l2, f m ≤ f y) := by
  match l with
  | [] => exact absurd rfl h
  | x :: xs =>
    rcases pyMinBy_foldl_spec f xs x with ⟨heq, hall⟩ | ⟨l1, l2, hsplit, hlt, hpre, hpost⟩
    · refine ⟨x, [], xs, ?_, by simp, by simp, hall⟩
      simp only [pyMinBy, heq]
    · refine ⟨_, x :: l1, l2, rfl, ?_, ?_, hpost⟩
      · simp only [List.cons_append]
        exact congrArg (x :: ·) hsplit
      · intro y hy
        rcases List.mem_cons.mp hy with h | h
        · subst h; exact hlt
        · exact hpre y h

theorem pyMinBy_none_iff {α : Type} (f : α → Int) (l : List α) :
    pyMinBy f l = none ↔ l = [] := by
  cases l <;> simp [pyMinBy]

/-- The append-accumulate loop is `List.filter`. -/
theorem applicable_filter_eq_filter {σ : Type} (isApp : ShippingRel → σ → Bool × String)
    (subject : σ) (candidates : List ShippingRel) :
    applicable_filter isApp subject candidates =
      candidates.filter (fun s => (isApp s subject).1) := by
  have key : ∀ (l : List ShippingRel) (acc : List ShippingRel),
      l.foldl (fun acc s => if (isApp s subject).1 then acc ++ [s] else acc) acc =
        acc ++ l.filter (fun s => (isApp s subject).1) := by
    intro l
    induction l with
    | nil => intro acc; simp
    | cons x xs ih =>
      intro acc
      rw [List.foldl_cons]
      by_cases hx : (isApp x subject).1
      · rw [if_pos hx, ih]
        simp [List.filter_cons, hx]
      · rw [if_neg hx, ih]
        simp [List.filter_cons, hx]
  simpa using key candidates []

theorem dict_set_update_key {α : Type} (k : Nat) (v : α) (p : Nat × α) :
    ((fun p => if p.1 == k then (k, v) else p) p).1 = p.1 := by
  by_cases hp : p.1 = k
  · subst hp; simp
  · simp [hp]

theorem dict_set_find {α : Type} (m : List (Nat × α)) (k k' : Nat) (v : α) :
    (m.map (fun p => if p.1 == k then (k, v) else p)).find? (fun p => p.1 == k') =
      Option.map (fun p => if p.1 == k then (k, v) else p)
        (m.find? (fun p => p.1 == k')) := by
  rw [List.find?_map]
  have hfg : ((fun p : Nat × α => p.1 == k') ∘ fun p => if p.1 == k then (k, v) else p)
      = (fun p : Nat × α => p.1 == k') := by
    funext p
    simp only [Function.comp_apply]
    rw [dict_set_update_key]
  rw [hfg]

theorem dict_get_set_self {α : Type} (m : List (Nat × α)) (k : Nat) (v : α) :
    dict_get (dict_set m k v) k = some v := by
  unfold dict_set
  by_cases hany : m.any (fun p => p.1 == k)
  · rw [if_pos hany, dict_get, dict_set_find]
    rcases List.any_eq_true.mp hany with ⟨p, hp, hpk⟩
    have hsome : (m.find? (fun p => p.1 == k)).isSome :=
      List.find?_isSome.mpr ⟨p, hp, hpk⟩
    rcases Option.isSome_iff_exists.mp hsome with ⟨q, hq⟩
    have hqk : q.1 = k := by simpa using List.find?_some hq
    rw [hq]
    simp [hqk]
  · rw [if_neg hany, dict_get, List.find?_append]
    have hnone : m.find? (fun p => p.1 == k) = none := by
      rw [List.find?_eq_none]
      intro p hp
      exact fun hpk => hany (List.any_eq_true.mpr ⟨p, hp, hpk⟩)
    rw [hnone]
    simp

theorem dict_get_set_other {α : Type} (m : List (Nat × α)) (k k' : Nat) (v : α)
    (hne : k' ≠ k) : dict_get (dict_set m k v) k' = dict_get m k' := by
  unfold dict_set
  by_cases hany : m.any (fun p => p.1 == k)
  · rw [if_pos hany, dict_get, dict_set_find, dict_get]
    cases hf : m.find? (fun p => p.1 == k') with
    | none => simp
    | some q =>
      have hqk' : q.1 = k' := by simpa using List.find?_some hf
      have hqk : ¬(q.1 = k) := by rw [hqk']; exact hne
      simp [hqk]
  · rw [if_neg hany, dict_get, List.find?_append, dict_get]
    have hlast : ([(k, v)].find? (fun p => p.1 == k')) = none := by
      simp [Ne.symm hne]
    rw [hlast]
    cases m.find? (fun p => p.1 == k') <;> simp

theorem dict_set_keys {α : Type} (m : List (Nat × α)) (k : Nat) (v : α) :
    (dict_set m k v).map (·.1) =
      if m.any (fun p => p.1 == k) then m.map (·.1) else m.map (·.1) ++ [k] := by
  unfold dict_set
  by_cases hany : m.any (fun p => p.1 == k)
  · rw [if_pos hany, if_pos hany, List.map_map]
    apply List.map_congr_left
    intro p _
    simpa using dict_set_update_key k v p
  · rw [if_neg hany, if_neg hany]
    simp

theorem dict_set_nodup_keys {α : Type} (m : List (Nat × α)) (k : Nat) (v : α)
    (hnd : (m.map (·.1)).Nodup) : ((dict_set m k v).map (·.1)).Nodup := by
  rw [dict_set_keys]
  by_cases hany : m.any (fun p => p.1 == k)
  · rw [if_pos hany]; exact hnd
  · rw [if_neg hany]
    rw [List.nodup_append]
    refine ⟨hnd, List.nodup_singleton k, ?_⟩
    intro a ha hb
    have hak : a = k := by simpa using hb
    subst hak
    rcases List.mem_map.mp ha with ⟨p, hp, hpk⟩
    exact hany (List.any_eq_true.mpr ⟨p, hp, by simpa using hpk⟩)

theorem dict_set_forall {α : Type} {P : Nat × α → Prop} (m : List (Nat × α)) (k : Nat) (v : α)
    (hm : ∀ p ∈ m, P p) (hv : P (k, v)) : ∀ p ∈ dict_set m k v, P p := by
  unfold dict_set
  by_cases hany : m.any (fun p => p.1 == k)
  · rw [if_pos hany]
    intro p hp
    rcases List.mem_map.mp hp with ⟨q, hq, hqe⟩
    by_cases hqk : q.1 == k
    · rw [if_pos hqk] at hqe; rw [← hqe]; exact hv
    · rw [if_neg hqk] at hqe; rw [← hqe]; exact hm q hq
  · rw [if_neg hany]
    intro p hp
    rcases List.mem_append.mp hp with h | h
    · exact hm p h
    · have : p = (k, v) := by simpa using h
      rw [this]; exact hv

theorem find_of_mem_nodup_keys {α : Type} (m : List (Nat × α)) (p : Nat × α)
    (hp : p ∈ m) (hnd : (m.map (·.1)).Nodup) :
    m.find? (fun q => q.1 == p.1) = some p := by
  induction m with
  | nil => simp at hp
  | cons q rest ih =>
    rcases List.mem_cons.mp hp with h | h
    · subst h
      simp [List.find?_cons]
    · have hq : ¬(q.1 == p.1) := by
        intro hcontra
        have hqp : q.1 = p.1 := by simpa using hcontra
        have : p.1 ∈ rest.map (·.1) := List.mem_map.mpr ⟨p, h, rfl⟩
        rw [List.map_cons, List.nodup_cons] at hnd
        exact hnd.1 (hqp ▸ this)
      rw [List.map_cons, List.nodup_cons] at hnd
      simpa [List.find?_cons, hq] using ih h hnd.2

theorem dedup_fold_get (l : List ShippingConfig) :
    ∀ (m0 : List (Nat × ShippingConfig)) (k : Nat),
      dict_get (l.foldl (fun m sc => dict_set m sc.key sc) m0) k =
        match l.reverse.find? (fun sc => sc.key == k) with
        | some sc => some sc
        | none => dict_get m0 k := by
  induction l with
  | nil => intro m0 k; simp
  | cons sc rest ih =>
    intro m0 k
    rw [List.foldl_cons, ih (dict_set m0 sc.key sc) k, List.reverse_cons, List.find?_append]
    cases hr : rest.reverse.find? (fun c => c.key == k) with
    | some sc' => simp
    | none =>
      by_cases hk : sc.key = k
      · subst hk
        simp [dict_get_set_self]
      · have hkb : ¬(sc.key == k) := by simpa using hk
        simp only [hkb, Option.none_or, List.find?_cons_of_neg, List.find?_nil,
          Bool.false_eq_true, not_false_eq_true]
        rw [dict_get_set_other m0 sc.key k sc (fun h => hk h.symm)]

theorem dedup_fold_nodup_keys (l : List ShippingConfig) :
    ∀ m0 : List (Nat × ShippingConfig), (m0.map (·.1)).Nodup →
      ((l.foldl (fun m sc => dict_set m sc.key sc) m0).map (·.1)).Nodup := by
  induction l with
  | nil => intro m0 h; exact h
  | cons sc rest ih =>
    intro m0 h
    rw [List.foldl_cons]
    exact ih _ (dict_set_nodup_keys m0 sc.key sc h)

theorem dedup_fold_entry_key (l : List ShippingConfig) :
    ∀ m0 : List (Nat × ShippingConfig), (∀ p ∈ m0, (p.2).key = p.1) →
      ∀ p ∈ l.foldl (fun m sc => dict_set m sc.key sc) m0, (p.2).key = p.1 := by
  induction l with
  | nil => intro m0 h; exact h
  | cons sc rest ih =>
    intro m0 h
    rw [List.foldl_cons]
    exact ih _ (dict_set_forall m0 sc.key sc h rfl)

theorem dedup_keys_nodup (l : List ShippingConfig) :
    ((dedup_shipping_configs l).map (·.key)).Nodup := by
  unfold dedup_shipping_configs
  have hnd := dedup_fold_nodup_keys l [] (by simp)
  have hinv := dedup_fold_entry_key l [] (by simp)
  rw [List.map_map]
  have heq : (l.foldl (fun m sc => dict_set m sc.key sc) []).map
        ((fun sc : ShippingConfig => sc.key) ∘ (fun p : Nat × ShippingConfig => p.2)) =
      (l.foldl (fun m sc => dict_set m sc.key sc) []).map (·.1) :=
    List.map_congr_left (fun p hp => hinv p hp)
  rw [heq]
  exact hnd

theorem dedup_last_write (l : List ShippingConfig) :
    ∀ sc ∈ dedup_shipping_configs l,
      l.reverse.find? (fun c => c.key == sc.key) = some sc := by
  intro sc hsc
  unfold dedup_shipping_configs at hsc
  rcases List.mem_map.mp hsc with ⟨p, hp, hpe⟩
  have hinv := dedup_fold_entry_key l [] (by simp) p hp
  have hnd := dedup_fold_nodup_keys l [] (by simp)
  have hfind := find_of_mem_nodup_keys _ p hp hnd
  have hget : dict_get (l.foldl (fun m sc => dict_set m sc.key sc) []) p.1 = some p.2 := by
    rw [dict_get, hfind]; rfl
  rw [dedup_fold_get l [] p.1] at hget
  have hkey : sc.key = p.1 := by rw [← hpe]; exact hinv
  rw [hkey]
  cases hr : l.reverse.find? (fun c => c.key == p.1) with
  | none => rw [hr] at hget; simp [dict_get] at hget
  | some sc' =>
    rw [hr] at hget
    have : sc' = p.2 := by simpa using hget
    rw [this, hpe]

theorem dedup_mem_keys (l : List ShippingConfig) (k : Nat) :
    k ∈ (dedup_shipping_configs l).map (·.key) ↔ k ∈ l.map (·.key) := by
  constructor
  · intro hk
    rcases List.mem_map.mp hk with ⟨sc, hsc, hke⟩
    have hfind := dedup_last_write l sc hsc
    have hmem : sc ∈ l.reverse := List.mem_of_find?_eq_some hfind
    exact List.mem_map.mpr ⟨sc, List.mem_reverse.mp hmem, hke⟩
  · intro hk
    rcases List.mem_map.mp hk with ⟨c, hc, hke⟩
    have hsome : (l.reverse.find? (fun c => c.key == k)).isSome :=
      List.find?_isSome.mpr ⟨c, List.mem_reverse.mpr hc, by simp [hke]⟩
    rcases Option.isSome_iff_exists.mp hsome with ⟨sc', hsc'⟩
    have hget : dict_get (l.foldl (fun m sc => dict_set m sc.key sc) []) k = some sc' := by
      rw [dedup_fold_get l [] k, hsc']
    rw [dict_get] at hget
    cases hq : (l.foldl (fun m sc => dict_set m sc.key sc) []).find? (fun p => p.1 == k) with
    | none => rw [hq] at hget; simp at hget
    | some q =>
      rw [hq] at hget
      have hq2 : q.2 = sc' := by simpa using hget
      have hqmem := List.mem_of_find?_eq_some hq
      have hqk : q.1 = k := by simpa using List.find?_some hq
      have hinv := dedup_fold_entry_key l [] (by simp) q hqmem
      refine List.mem_map.mpr ⟨sc', ?_, ?_⟩
      · exact List.mem_map.mpr ⟨q, hqmem, hq2⟩
      · rw [← hq2, hinv, hqk]

/- ### Evaluation of the concrete instances -/

theorem collected_cartC1_eval : collected_shipping_configs cartC1 = [sc1, sc1] := by
  simp [collected_shipping_configs, cartC1, walkQueue, walkStep, art1, art2]

theorem skels_cartC1_eval : get_shipping_skels_for_cart cartC1 = [opt5, opt3] := by
  rw [get_shipping_skels_for_cart, collected_cartC1_eval]
  decide

theorem collected_cartNoConfig_eval : collected_shipping_configs cartNoConfig = [] := by
  simp [collected_shipping_configs, cartNoConfig, walkQueue, walkStep]

theorem skels_cartNoConfig_eval : get_shipping_skels_for_cart cartNoConfig = [] := by
  rw [get_shipping_skels_for_cart, collected_cartNoConfig_eval]
  decide

/-- With no candidate entries at all, the stray second flatten iterates
nothing and `get_available_shipping_skels_for_cart` returns `[]`. -/
theorem get_available_ok_of_no_candidates (isApp : ShippingRel → CartSkel → Bool × String)
    (cart_skel : CartSkel) (h : get_shipping_skels_for_cart cart_skel = []) :
    get_available_shipping_skels_for_cart isApp cart_skel = Except.ok [] := by
  unfold get_available_shipping_skels_for_cart
  rw [h]
  rfl

/-- With at least one candidate entry, the stray second flatten yields the
entry dict's keys and the loop body raises `TypeError` at
`shipping["dest"]` on the first of them. -/
theorem get_available_error_of_candidates (isApp : ShippingRel → CartSkel → Bool × String)
    (cart_skel : CartSkel) (h : get_shipping_skels_for_cart cart_skel ≠ []) :
    get_available_shipping_skels_for_cart isApp cart_skel =
      Except.error "TypeError: string indices must be integers" := by
  unfold get_available_shipping_skels_for_cart
  cases hc : get_shipping_skels_for_cart cart_skel with
  | nil => exact absurd hc h
  | cons s rest =>
    simp [rel_entry_keys]

theorem collected_cartDup_eval : collected_shipping_configs cartDup = [scA, scB] := by
  simp [collected_shipping_configs, cartDup, walkQueue, walkStep]

theorem dedup_cartDup_eval :
    dedup_shipping_configs (collected_shipping_configs cartDup) = [scB] := by
  rw [collected_cartDup_eval]
  decide

theorem skels_cartDup_eval : get_shipping_skels_for_cart cartDup = [opt3] := by
  rw [get_shipping_skels_for_cart, collected_cartDup_eval]
  decide

/- ### Claim theorems -/

/-- C3: `choose_shipping_skel_for_article` has three mutually
distinguishable results: `noConfig` (Python `None`) for an article without
a shipping configuration, `unresolvable` (Python `False`) for a configured
article none of whose candidate options is applicable, and otherwise the
applicable option of minimum cost, where a missing cost compares as zero
and ties go to the first-encountered option. -/
theorem choose_shipping_trichotomy (isApp : ShippingRel → Article → Bool × String)
    (a : Article) :
    (ChooseShippingResult.noConfig ≠ ChooseShippingResult.unresolvable
      ∧ ∀ s, ChooseShippingResult.noConfig ≠ ChooseShippingResult.chosen s
        ∧ ChooseShippingResult.unresolvable ≠ ChooseShippingResult.chosen s)
    ∧ (a.shop_shipping_config = none →
        choose_shipping_skel_for_article isApp a = ChooseShippingResult.noConfig)
    ∧ (∀ cfg, a.shop_shipping_config = some cfg →
        (applicable_filter isApp a cfg.shipping = [] →
          choose_shipping_skel_for_article isApp a = ChooseShippingResult.unresolvable)
        ∧ (applicable_filter isApp a cfg.shipping ≠ [] →
          ∃ s l1 l2, applicable_filter isApp a cfg.shipping = l1 ++ s :: l2 ∧
            (isApp s a).1 = true ∧
            (∀ y ∈ l1, ship_cost s < ship_cost y) ∧
            (∀ y ∈ l2, ship_cost s ≤ ship_cost y) ∧
            choose_shipping_skel_for_article isApp a = ChooseShippingResult.chosen s)) := by
  refine ⟨⟨by simp, fun s => ⟨by simp, by simp⟩⟩, ?_, ?_⟩
  · intro hnone
    unfold choose_shipping_skel_for_article
    rw [hnone]
  · intro cfg hcfg
    constructor
    · intro hempty
      unfold choose_shipping_skel_for_article
      rw [hcfg]
      simp only [hempty]
      rfl
    · intro hne
      obtain ⟨m, l1, l2, hpy, hsplit, hpre, hpost⟩ := pyMinBy_spec ship_cost _ hne
      refine ⟨m, l1, l2, hsplit, ?_, hpre, hpost, ?_⟩
      · have hmem : m ∈ applicable_filter isApp a cfg.shipping := by
          rw [hsplit]
          exact List.mem_append.mpr (Or.inr (List.mem_cons_self m l2))
        rw [applicable_filter_eq_filter] at hmem
        exact (List.mem_filter.mp hmem).2
      · unfold choose_shipping_skel_for_article
        rw [hcfg]
        simp only [hpy]

/-- C3 witness: for the article referencing `SC1` under the policy that
accepts only option 51, the chosen shipping is an applicable minimum-cost
option. -/
theorem choose_shipping_trichotomy_witness :
    art1.shop_shipping_config = some sc1 ∧
    applicable_filter isAppArt51 art1 sc1.shipping ≠ [] ∧
    ∃ s l1 l2, applicable_filter isAppArt51 art1 sc1.shipping = l1 ++ s :: l2 ∧
      (isAppArt51 s art1).1 = true ∧
      (∀ y ∈ l1, ship_cost s < ship_cost y) ∧
      (∀ y ∈ l2, ship_cost s ≤ ship_cost y) ∧
      choose_shipping_skel_for_article isAppArt51 art1 = ChooseShippingResult.chosen s :=
  ⟨rfl, by decide,
    ((choose_shipping_trichotomy isAppArt51 art1).2.2 sc1 rfl).2 (by decide)⟩

/-- C5 (code bug): `get_available_shipping_skels_for_cart` wraps the
already-flat candidate list from `get_shipping_skels_for_cart` in
`itertools.chain.from_iterable` a second time, so for every cart with at
least one candidate entry the loop iterates dict keys and the body raises
`TypeError` at `shipping["dest"]` — `is_applicable` is never evaluated and
the applicable options are never returned; in particular the spec scenario
(cart `C1`, candidates cost 5 applicable / cost 3 inapplicable) crashes
instead of returning the cost-5 option.  Only a cart with no candidates
at all returns (the empty list). -/
theorem get_available_double_flatten_crashes :
    (∀ (isApp : ShippingRel → CartSkel → Bool × String) (cart_skel : CartSkel),
      get_shipping_skels_for_cart cart_skel ≠ [] →
      get_available_shipping_skels_for_cart isApp cart_skel =
        Except.error "TypeError: string indices must be integers")
    ∧ get_available_shipping_skels_for_cart isApp51 cartC1 =
        Except.error "TypeError: string indices must be integers"
    ∧ get_available_shipping_skels_for_cart isApp51 cartC1 ≠ Except.ok [opt5] := by
  have hc1 : get_shipping_skels_for_cart cartC1 ≠ [] := by
    rw [skels_cartC1_eval]
    simp
  have herr := get_available_error_of_candidates isApp51 cartC1 hc1
  refine ⟨fun isApp cart_skel h => get_available_error_of_candidates isApp cart_skel h,
    herr, ?_⟩
  rw [herr]
  exact fun h => Except.noConfusion h

/-- C5 witness: the scenario cart has candidates, and the call errors. -/
theorem get_available_double_flatten_crashes_witness :
    get_shipping_skels_for_cart cartC1 ≠ [] ∧
    get_available_shipping_skels_for_cart isAppAll cartC1 =
      Except.error "TypeError: string indices must be integers" := by
  have hc1 : get_shipping_skels_for_cart cartC1 ≠ [] := by
    rw [skels_cartC1_eval]
    simp
  exact ⟨hc1, get_available_double_flatten_crashes.1 isAppAll cartC1 hc1⟩

/-- C4: for every cart subtree, the dedup step applied after the traversal
collapses the collected shipping-config references by key: the resulting
list holds each distinct configuration key at most once (and exactly the
keys that were collected), and the entry kept for each key is the last
reference written during the traversal — not the first and not all of
them. -/
theorem cart_shipping_config_dedup (cart_skel : CartSkel) :
    ((dedup_shipping_configs (collected_shipping_configs cart_skel)).map (·.key)).Nodup
    ∧ (∀ sc ∈ dedup_shipping_configs (collected_shipping_configs cart_skel),
        (collected_shipping_configs cart_skel).reverse.find? (fun c => c.key == sc.key)
          = some sc)
    ∧ (∀ k : Nat,
        k ∈ (dedup_shipping_configs (collected_shipping_configs cart_skel)).map (·.key)
          ↔ k ∈ (collected_shipping_configs cart_skel).map (·.key)) :=
  ⟨dedup_keys_nodup _, dedup_last_write _, fun k => dedup_mem_keys _ k⟩

/-- C4 witness: in the cart whose two leaves carry the structurally
different configs `scA`/`scB` sharing key 9, the collapsed list keeps
exactly the last-written `scB`. -/
theorem cart_shipping_config_dedup_witness :
    scB ∈ dedup_shipping_configs (collected_shipping_configs cartDup) ∧
    (collected_shipping_configs cartDup).reverse.find? (fun c => c.key == scB.key)
      = some scB := by
  have hmem : scB ∈ dedup_shipping_configs (collected_shipping_configs cartDup) := by
    rw [dedup_cartDup_eval]
    exact List.mem_singleton.mpr rfl
  exact ⟨hmem, (cart_shipping_config_dedup cartDup).2.1 scB hmem⟩

/-- C6 (code bug): `set_shipping_to_cart` first computes
`get_available_shipping_skels_for_cart`, which raises `TypeError` for any
cart with candidate entries, so on cart `C1` both an applicable
destination key (51, the scenario policy's applicable option) and an
unknown key (999) crash with `TypeError` before the key check — the
promised not-found rejection and the `cart_update` delegation are
unreachable there, and no key is ever delegated.  Only a cart with no
candidate entries reaches the key loop, where any explicit key is
rejected with the not-found error (no silent fallback). -/
theorem set_shipping_explicit_key_type_error :
    set_shipping_to_cart isApp51 cartC1 (some 51) =
      SetShippingResult.typeError "TypeError: string indices must be integers"
    ∧ set_shipping_to_cart isApp51 cartC1 (some 999) =
      SetShippingResult.typeError "TypeError: string indices must be integers"
    ∧ (∀ k, set_shipping_to_cart isApp51 cartC1 (some k) ≠
        SetShippingResult.updated cartC1.key k)
    ∧ set_shipping_to_cart isAppAll cartNoConfig (some 51) =
      SetShippingResult.notFound "Provided Shipping key not found" := by
  have hc1 : get_shipping_skels_for_cart cartC1 ≠ [] := by
    rw [skels_cartC1_eval]
    simp
  have htyp : ∀ k : Nat, set_shipping_to_cart isApp51 cartC1 (some k) =
      SetShippingResult.typeError "TypeError: string indices must be integers" := by
    intro k
    unfold set_shipping_to_cart
    rw [get_available_error_of_candidates isApp51 cartC1 hc1]
  refine ⟨htyp 51, htyp 999, ?_, ?_⟩
  · intro k h
    rw [htyp k] at h
    exact SetShippingResult.noConfusion h
  · unfold set_shipping_to_cart
    rw [get_available_ok_of_no_candidates isAppAll cartNoConfig skels_cartNoConfig_eval]
    rfl

/-- C9 (code bug): the cheapest-option delegation is unreachable: for any
cart with candidate entries, the `get_available_shipping_skels_for_cart`
call at the top of `set_shipping_to_cart` raises `TypeError` first, so a
non-empty applicable set is never computed; on cart `C1` with every option
applicable the omitted-key call crashes instead of delegating
`cart_update` with the cost-3 option, and no key is ever delegated. -/
theorem set_shipping_omitted_key_type_error :
    set_shipping_to_cart isAppAll cartC1 none =
      SetShippingResult.typeError "TypeError: string indices must be integers"
    ∧ (∀ k, set_shipping_to_cart isAppAll cartC1 none ≠
        SetShippingResult.updated cartC1.key k)
    ∧ (∀ (isApp : ShippingRel → CartSkel → Bool × String) (cart_skel : CartSkel),
        get_shipping_skels_for_cart cart_skel ≠ [] →
        set_shipping_to_cart isApp cart_skel none =
          SetShippingResult.typeError "TypeError: string indices must be integers") := by
  have hgen : ∀ (isApp : ShippingRel → CartSkel → Bool × String) (cart_skel : CartSkel),
      get_shipping_skels_for_cart cart_skel ≠ [] →
      set_shipping_to_cart isApp cart_skel none =
        SetShippingResult.typeError "TypeError: string indices must be integers" := by
    intro isApp cart_skel h
    unfold set_shipping_to_cart
    rw [get_available_error_of_candidates isApp cart_skel h]
  have hc1 : get_shipping_skels_for_cart cartC1 ≠ [] := by
    rw [skels_cartC1_eval]
    simp
  refine ⟨hgen isAppAll cartC1 hc1, ?_, hgen⟩
  intro k h
  rw [hgen isAppAll cartC1 hc1] at h
  exact SetShippingResult.noConfusion h

/-- C9 witness: the duplicate-config cart also has candidate entries, and
its omitted-key call crashes with `TypeError`. -/
theorem set_shipping_omitted_key_type_error_witness :
    get_shipping_skels_for_cart cartDup ≠ [] ∧
    set_shipping_to_cart isAppNone cartDup none =
      SetShippingResult.typeError "TypeError: string indices must be integers" := by
  have hdup : get_shipping_skels_for_cart cartDup ≠ [] := by
    rw [skels_cartDup_eval]
    simp
  exact ⟨hdup, set_shipping_omitted_key_type_error.2.2 isAppNone cartDup hdup⟩

/-- C10 counterexample: cart `C1` under the never-applicable policy has an
empty applicable shipping set in the claim's sense (every candidate option
is inapplicable), yet the omitted-key call raises `TypeError` inside
`get_available_shipping_skels_for_cart` — it reaches neither the dead
not-found check nor the `ValueError` of `min` that the claim asserts. -/
theorem set_shipping_inapplicable_counterexample :
    set_shipping_to_cart isAppNone cartC1 none =
      SetShippingResult.typeError "TypeError: string indices must be integers"
    ∧ set_shipping_to_cart isAppNone cartC1 none ≠ SetShippingResult.valueErrorEmptyMin := by
  have hc1 : get_shipping_skels_for_cart cartC1 ≠ [] := by
    rw [skels_cartC1_eval]
    simp
  have h : set_shipping_to_cart isAppNone cartC1 none =
      SetShippingResult.typeError "TypeError: string indices must be integers" := by
    unfold set_shipping_to_cart
    rw [get_available_error_of_candidates isAppNone cartC1 hc1]
  refine ⟨h, ?_⟩
  rw [h]
  exact fun hh => SetShippingResult.noConfusion hh

/-- C10 (amended): the not-found check of `set_shipping_to_cart` is
ineffective (the error object is constructed but never raised); with
`shipping_key` omitted, the call fails with the `ValueError` of `min` on
an empty sequence exactly when the cart has no candidate entries at all —
the only case in which `get_available_shipping_skels_for_cart` completes
with an empty applicable set — and never with not-found.  When candidate
entries exist (even if every option is inapplicable) the call instead
raises `TypeError` inside `get_available_shipping_skels_for_cart`, before
the dead check. -/
theorem set_shipping_empty_candidates_value_error
    (isApp : ShippingRel → CartSkel → Bool × String) (cart_skel : CartSkel) :
    (get_shipping_skels_for_cart cart_skel = [] →
      get_available_shipping_skels_for_cart isApp cart_skel = Except.ok [] ∧
      set_shipping_to_cart isApp cart_skel none = SetShippingResult.valueErrorEmptyMin ∧
      ∀ msg, set_shipping_to_cart isApp cart_skel none ≠ SetShippingResult.notFound msg)
    ∧ (get_shipping_skels_for_cart cart_skel ≠ [] →
      set_shipping_to_cart isApp cart_skel none =
        SetShippingResult.typeError "TypeError: string indices must be integers") := by
  constructor
  · intro h
    have hok := get_available_ok_of_no_candidates isApp cart_skel h
    have hres : set_shipping_to_cart isApp cart_skel none =
        SetShippingResult.valueErrorEmptyMin := by
      unfold set_shipping_to_cart
      rw [hok]
      rfl
    refine ⟨hok, hres, fun msg hh => ?_⟩
    rw [hres] at hh
    exact SetShippingResult.noConfusion hh
  · intro h
    unfold set_shipping_to_cart
    rw [get_available_error_of_candidates isApp cart_skel h]

/-- C10 witness: the cart with no shipping configuration at all has no
candidates; its omitted-key call ends in the `ValueError` of `min` and not
in not-found. -/
theorem set_shipping_empty_candidates_value_error_witness :
    get_shipping_skels_for_cart cartNoConfig = [] ∧
    get_available_shipping_skels_for_cart isAppAll cartNoConfig = Except.ok [] ∧
    set_shipping_to_cart isAppAll cartNoConfig none = SetShippingResult.valueErrorEmptyMin :=
  ⟨skels_cartNoConfig_eval,
    ((set_shipping_empty_candidates_value_error isAppAll cartNoConfig).1
      skels_cartNoConfig_eval).1,
    ((set_shipping_empty_candidates_value_error isAppAll cartNoConfig).1
      skels_cartNoConfig_eval).2.1⟩

/-- C2 (code bug): `freeze_order` — the step `checkout_start` runs to
freeze the order's cart-derived values before persisting — is an
unimplemented stub: its body consists of TODO comments (`recalculate
cart`, `copy values (should not be hit by update relations)`) and it
returns the order unchanged, copying nothing, so a started order is not
insulated from later cart mutation as the spec requires. -/
theorem freeze_order_is_stub (order_skel : OrderSkel) :
    freeze_order order_skel = order_skel := rfl

/-- C7 (code bug): a supplied non-null `billing_address_key` resolving to
an address whose type is not BILLING makes `order_add` abort with the
`InvalidArgumentException` before anything is persisted — order store and
session key are returned unchanged — but the raised error names the wrong
field: the literal `"shipping_address"` instead of the billing-address
field being validated. -/
theorem order_add_rejects_non_billing_address (env : OrderEnv) (store : OrderStore)
    (new_key cart_key bk : Nat) (args : OrderAddArgs) (addr : Address)
    (hvalid : is_valid_node env.carts cart_key true = true)
    (hbk : args.billing_address_key = some (some bk))
    (haddr : dict_get env.addresses bk = some addr)
    (htype : addr.address_type ≠ AddressType.billing) :
    order_add env store new_key cart_key args =
      (store, env.session_cart_key,
        OrderAddResult.invalidArgument "shipping_address"
          "Address is not of type billing.") := by
  obtain ⟨c, hc⟩ : ∃ c, dict_get env.carts cart_key = some c := by
    unfold is_valid_node at hvalid
    cases h : dict_get env.carts cart_key with
    | none => rw [h] at hvalid; exact absurd hvalid (by simp)
    | some c => exact ⟨c, rfl⟩
  have hskel : order_add_skel env cart_key args =
      Except.error (OrderAddResult.invalidArgument "shipping_address"
        "Address is not of type billing.") := by
    unfold order_add_skel
    rw [hvalid, hc]
    simp only [not_true_eq_false, if_false, hbk, haddr, if_pos htype]
  unfold order_add
  rw [hskel]

/-- C7 witness: address 7 in `envW` has type SHIPPING; `order_add` on the
valid root cart 1 with that billing key changes nothing and raises the
invalid-argument error (naming `"shipping_address"`). -/
theorem order_add_rejects_non_billing_address_witness :
    order_add envW [] 50 1 argsBadBilling =
      ([], none,
        OrderAddResult.invalidArgument "shipping_address"
          "Address is not of type billing.") :=
  order_add_rejects_non_billing_address envW [] 50 1 7 argsBadBilling
    { address_type := AddressType.shipping } (by decide) rfl rfl (by decide)

/-- C8: whenever `can_checkout` reports validation failures,
`checkout_start` returns the complete failure list as a structured 400
response instead of raising, and causes no state transition — the store is
returned unchanged, so nothing is frozen, no order UID is assigned and
nothing is persisted.  The validation is additive, not fail-fast: an order
missing both cart and payment provider reports both failures together, and
one missing only the payment provider reports exactly that failure. -/
theorem checkout_start_reports_failures (pps : List PaymentProviderAbstract)
    (now_digits : List Char) (store : OrderStore) (order_key : Nat) (skel : OrderSkel)
    (errs : List String)
    (hload : store_get store order_key = some skel)
    (hval : can_checkout pps skel = Except.ok errs)
    (hne : errs ≠ []) :
    checkout_start pps now_digits store order_key = (store, CheckoutResponse.badRequest errs)
    ∧ (∀ o : OrderSkel, o.cart = none → o.payment_provider = none →
        can_checkout pps o = Except.ok ["missing cart", "missing payment_provider"])
    ∧ (∀ o : OrderSkel, o.cart ≠ none → o.payment_provider = none →
        can_checkout pps o = Except.ok ["missing payment_provider"]) := by
  refine ⟨?_, ?_, ?_⟩
  · simp only [checkout_start, hload, hval]
    rw [if_neg hne]
  · intro o hc hp
    unfold can_checkout
    rw [hp, if_pos hc]
    rfl
  · intro o hc hp
    unfold can_checkout
    rw [hp, if_neg hc]
    rfl

/-- C8 witness: the order missing both cart and payment provider gets both
failures back in one 400 response and the store is untouched. -/
theorem checkout_start_reports_failures_witness :
    checkout_start [] [] storeBare 12 =
      (storeBare, CheckoutResponse.badRequest ["missing cart", "missing payment_provider"]) :=
  (checkout_start_reports_failures [] [] storeBare 12 orderBare
    ["missing cart", "missing payment_provider"] rfl rfl (by decide)).1

theorem can_order_already_mem (pps : List PaymentProviderAbstract) (skel : OrderSkel)
    (errs : List String) (hord : skel.is_ordered = true)
    (h : can_order pps skel = Except.ok errs) : "already is_ordered" ∈ errs := by
  simp only [can_order, hord, if_true] at h
  cases hpp : skel.payment_provider with
  | none =>
    simp only [hpp] at h
    injection h with h1
    rw [← h1]
    simp
  | some name =>
    simp only [hpp] at h
    by_cases hname : name = ""
    · rw [if_pos hname] at h
      injection h with h1
      rw [← h1]
      simp
    · rw [if_neg hname] at h
      cases hfind : get_payment_provider_by_name pps name with
      | none => simp only [hfind] at h; exact Except.noConfusion h
      | some pp =>
        simp only [hfind] at h
        injection h with h1
        rw [← h1]
        simp

theorem can_order_missing_cart_mem (pps : List PaymentProviderAbstract) (skel : OrderSkel)
    (errs : List String) (hcart : skel.cart = none)
    (h : can_order pps skel = Except.ok errs) : "missing cart" ∈ errs := by
  simp only [can_order, hcart, if_true] at h
  cases hpp : skel.payment_provider with
  | none =>
    simp only [hpp] at h
    injection h with h1
    rw [← h1]
    simp
  | some name =>
    simp only [hpp] at h
    by_cases hname : name = ""
    · rw [if_pos hname] at h
      injection h with h1
      rw [← h1]
      simp
    · rw [if_neg hname] at h
      cases hfind : get_payment_provider_by_name pps name with
      | none => simp only [hfind] at h; exact Except.noConfusion h
      | some pp =>
        simp only [hfind] at h
        injection h with h1
        rw [← h1]
        simp

theorem can_order_ok_nil_inv (pps : List PaymentProviderAbstract) (skel : OrderSkel)
    (hok : can_order pps skel = Except.ok []) :
    skel.is_ordered = false ∧ skel.cart ≠ none ∧
    ∃ name pp, skel.payment_provider = some name ∧ ¬ name = "" ∧
      get_payment_provider_by_name pps name = some pp ∧ pp.can_order skel = [] := by
  have hord : skel.is_ordered = false := by
    cases hb : skel.is_ordered
    · rfl
    · exact absurd (can_order_already_mem pps skel [] hb hok) (by simp)
  have hcart : skel.cart ≠ none := by
    intro hc
    exact absurd (can_order_missing_cart_mem pps skel [] hc hok) (by simp)
  refine ⟨hord, hcart, ?_⟩
  simp only [can_order, hord, hcart, if_false, if_neg hcart] at hok
  cases hpp : skel.payment_provider with
  | none =>
    simp only [hpp] at hok
    exact absurd hok (by simp)
  | some name =>
    simp only [hpp] at hok
    by_cases hname : name = ""
    · rw [if_pos hname] at hok
      exact absurd hok (by simp)
    · rw [if_neg hname] at hok
      cases hfind : get_payment_provider_by_name pps name with
      | none => simp only [hfind] at hok; exact Except.noConfusion hok
      | some pp =>
        simp only [hfind] at hok
        injection hok with h1
        exact ⟨name, pp, rfl, hname, hfind, by simpa using h1⟩

/-- C1 counterexample: for the already finalized order whose
payment-provider name ("ghost") is not registered, `checkout_order`
propagates the `LookupError` raised by `get_payment_provider_by_name`
instead of returning a validation failure, so the claim's unconditional
"returns a validation failure containing an already-ordered condition"
fails on the code for this input. -/
theorem checkout_order_already_ordered_counterexample :
    checkout_order [] storeGhost 11 = (storeGhost, CheckoutResponse.lookupError "ghost") := by
  rfl

/-- C1 (amended): provided the provider lookup does not raise — i.e.
`can_order` completes with a list of failures — `checkout_order` on an
order with `is_ordered` already true returns a 400 validation failure
containing "already is_ordered" and leaves the store untouched; and for
two sequential calls on an order passing validation, the first persists
`is_ordered = true` and the second returns that validation failure without
persisting, so `is_ordered` transitions false to true exactly once. -/
theorem checkout_order_finalizes_once (pps : List PaymentProviderAbstract)
    (store : OrderStore) (order_key : Nat) (skel : OrderSkel)
    (hload : store_get store order_key = some skel) :
    (∀ errs, skel.is_ordered = true → can_order pps skel = Except.ok errs →
      checkout_order pps store order_key = (store, CheckoutResponse.badRequest errs)
      ∧ "already is_ordered" ∈ errs)
    ∧ (can_order pps skel = Except.ok [] →
      skel.is_ordered = false ∧
      checkout_order pps store order_key =
        (store_put store order_key { skel with is_ordered := true },
          CheckoutResponse.ok { skel with is_ordered := true }) ∧
      ∃ errs2, can_order pps { skel with is_ordered := true } = Except.ok errs2 ∧
        "already is_ordered" ∈ errs2 ∧
        checkout_order pps (store_put store order_key { skel with is_ordered := true })
            order_key =
          (store_put store order_key { skel with is_ordered := true },
            CheckoutResponse.badRequest errs2)) := by
  constructor
  · intro errs hord hco
    have hmem := can_order_already_mem pps skel errs hord hco
    have hne : errs ≠ [] := by
      intro hnil
      rw [hnil] at hmem
      simp at hmem
    refine ⟨?_, hmem⟩
    simp only [checkout_order, hload, hco]
    rw [if_neg hne]
  · intro hok
    obtain ⟨hord, hcart, name, pp, hpp, hname, hfind, _hpcan⟩ :=
      can_order_ok_nil_inv pps skel hok
    refine ⟨hord, ?_, ?_⟩
    · simp only [checkout_order, hload, hok, if_true]
    · have hload2 : store_get (store_put store order_key { skel with is_ordered := true })
          order_key = some { skel with is_ordered := true } :=
        dict_get_set_self store order_key { skel with is_ordered := true }
      have h1 : ({ skel with is_ordered := true } : OrderSkel).is_ordered = true := rfl
      have h2 : ({ skel with is_ordered := true } : OrderSkel).cart = skel.cart := rfl
      have h3 : ({ skel with is_ordered := true } : OrderSkel).payment_provider
          = skel.payment_provider := rfl
      have hco2 : can_order pps { skel with is_ordered := true } =
          Except.ok ("already is_ordered" :: pp.can_order { skel with is_ordered := true }) := by
        simp only [can_order, h1, h2, h3, hpp, if_true, if_neg hcart, if_neg hname, hfind]
        simp
      refine ⟨_, hco2, by simp, ?_⟩
      simp only [checkout_order, hload2, hco2]
      rw [if_neg (by simp)]

/-- C1 witness: with the all-accepting provider "pp" registered, the first
`checkout_order` on `orderReady` persists the finalized order and the
second call on the result is rejected with "already is_ordered" and
persists nothing. -/
theorem checkout_order_finalizes_once_witness :
    can_order [ppOk] orderReady = Except.ok [] ∧
    (orderReady.is_ordered = false ∧
      checkout_order [ppOk] storeReady 10 =
        (store_put storeReady 10 { orderReady with is_ordered := true },
          CheckoutResponse.ok { orderReady with is_ordered := true }) ∧
      ∃ errs2, can_order [ppOk] { orderReady with is_ordered := true } = Except.ok errs2 ∧
        "already is_ordered" ∈ errs2 ∧
        checkout_order [ppOk]
            (store_put storeReady 10 { orderReady with is_ordered := true }) 10 =
          (store_put storeReady 10 { orderReady with is_ordered := true },
            CheckoutResponse.badRequest errs2)) :=
  ⟨rfl, (checkout_order_finalizes_once [ppOk] storeReady 10 orderReady rfl).2 rfl⟩
